import Mathlib

set_option maxRecDepth 40000

/-!
Verification development for the AI Productivity Hub repository.

The five serverless handlers (support chat, habit insights, knowledge query,
ATS optimizer, job assistant) share one shape: parse body, check credential,
build prompts, POST to the AI gateway, regex-extract a JSON object from the
completion, return it or a fallback.  This file embeds that logic shallowly:
JSON values are a Lean inductive, the JavaScript regex
match of the form first-open-brace .. last-close-brace is `jsonSpan`,
JSON.parse is the executable fuel-based machine `JsonParse`, and each handler
is a pure function from (credential, typed body, gateway outcome) to an HTTP
response plus a gateway-call count.
-/

/-- JSON values as produced by JSON.parse.  Numbers are modelled as integers:
every numeric literal appearing in this repository's prompts, fallbacks and
test completions is an integer; fraction/exponent forms are out of scope and
parse as failures.  Objects keep their fields in textual order. -/
inductive Json where
  | null : Json
  | bool : Bool → Json
  | num : Int → Json
  | str : String → Json
  | arr : List Json → Json
  | obj : List (String × Json) → Json

/-- The opening-brace character, written via its code point. -/
def lbrace : Char := Char.ofNat 123

/-- The closing-brace character, written via its code point. -/
def rbrace : Char := Char.ofNat 125

/-- Index of the first occurrence of a character in a list, if any. -/
def firstIdxOf (c : Char) : List Char → Option Nat
  | [] => none
  | x :: xs => if x = c then some 0 else (firstIdxOf c xs).map (· + 1)

/-- Index of the last occurrence of a character in a list, if any. -/
def lastIdxOf (c : Char) (cs : List Char) : Option Nat :=
  (firstIdxOf c cs.reverse).map (fun i => cs.length - 1 - i)

/-- The span matched by the JavaScript regex used at every extraction site:
an opening brace, any characters, a closing brace, matched greedily.  The
match, when it exists, runs from the first opening brace of the text to the
last closing brace of the text, and exists exactly when some closing brace
follows the first opening brace. -/
def jsonSpan (cs : List Char) : Option (List Char) :=
  match firstIdxOf lbrace cs, lastIdxOf rbrace cs with
  | some i, some k => if i < k then some ((cs.drop i).take (k - i + 1)) else none
  | _, _ => none

/-- JSON whitespace accepted between tokens. -/
def isWs (c : Char) : Bool :=
  c = ' ' || c = Char.ofNat 9 || c = Char.ofNat 10 || c = Char.ofNat 13

/-- Drop leading JSON whitespace. -/
def skipWs (cs : List Char) : List Char := cs.dropWhile isWs

/-- Value of a hexadecimal digit. -/
def hexDigit (c : Char) : Option Nat :=
  if '0' ≤ c ∧ c ≤ '9' then some (c.toNat - '0'.toNat)
  else if 'a' ≤ c ∧ c ≤ 'f' then some (c.toNat - 'a'.toNat + 10)
  else if 'A' ≤ c ∧ c ≤ 'F' then some (c.toNat - 'A'.toNat + 10)
  else none

/-- Scan the characters of a JSON string literal after its opening quote,
handling the escape sequences of JSON.parse; returns the decoded characters
and the remainder after the closing quote. -/
def strChars : List Char → Option (List Char × List Char)
  | [] => none
  | c :: rest =>
    if c = '"' then some ([], rest)
    else if c = '\\' then
      match rest with
      | [] => none
      | e :: rest2 =>
        if e = '"' then (strChars rest2).map (fun p => ('"' :: p.1, p.2))
        else if e = '\\' then (strChars rest2).map (fun p => ('\\' :: p.1, p.2))
        else if e = '/' then (strChars rest2).map (fun p => ('/' :: p.1, p.2))
        else if e = 'n' then (strChars rest2).map (fun p => (Char.ofNat 10 :: p.1, p.2))
        else if e = 't' then (strChars rest2).map (fun p => (Char.ofNat 9 :: p.1, p.2))
        else if e = 'r' then (strChars rest2).map (fun p => (Char.ofNat 13 :: p.1, p.2))
        else if e = 'b' then (strChars rest2).map (fun p => (Char.ofNat 8 :: p.1, p.2))
        else if e = 'f' then (strChars rest2).map (fun p => (Char.ofNat 12 :: p.1, p.2))
        else if e = 'u' then
          match rest2 with
          | h1 :: h2 :: h3 :: h4 :: rest3 =>
            match hexDigit h1, hexDigit h2, hexDigit h3, hexDigit h4 with
            | some a, some b, some c2, some d =>
              (strChars rest3).map
                (fun p => (Char.ofNat (((a * 16 + b) * 16 + c2) * 16 + d) :: p.1, p.2))
            | _, _, _, _ => none
          | _ => none
        else none
    else (strChars rest).map (fun p => (c :: p.1, p.2))

/-- Parse a JSON string literal including its opening quote, after optional
leading whitespace. -/
def parseKey (cs : List Char) : Option (String × List Char) :=
  match skipWs cs with
  | c :: rest => if c = '"' then (strChars rest).map (fun p => (String.mk p.1, p.2)) else none
  | [] => none

/-- Accumulate decimal digits into a natural number. -/
def digitsAux (acc : Nat) : List Char → Nat × List Char
  | [] => (acc, [])
  | c :: rest =>
    if c.isDigit then digitsAux (acc * 10 + (c.toNat - '0'.toNat)) rest
    else (acc, c :: rest)

/-- Parse an integer JSON number (optional minus sign, one or more digits). -/
def parseNum (cs : List Char) : Option (Json × List Char) :=
  match cs with
  | '-' :: d :: rest =>
    if d.isDigit then
      let p := digitsAux (d.toNat - '0'.toNat) rest
      some (Json.num (-(Int.ofNat p.1)), p.2)
    else none
  | d :: rest =>
    if d.isDigit then
      let p := digitsAux (d.toNat - '0'.toNat) rest
      some (Json.num (Int.ofNat p.1), p.2)
    else none
  | [] => none

/-- A pending enclosing construct during parsing: an array with the elements
parsed so far, or an object with the members parsed so far and the key whose
value is being read. -/
inductive Frame where
  | farr : List Json → Frame
  | fobj : List (String × Json) → String → Frame

/-- Parser state: either expecting a value, or holding a just-completed value
to be folded into the enclosing frame. -/
inductive PState where
  | pvalue : PState
  | pdone : Json → PState

/-- One-token-at-a-time JSON parsing machine.  Fuel decreases at every step;
every step consumes at least one input character, so fuel equal to the input
length plus one suffices.  Mirrors JSON.parse restricted to integer
numbers. -/
def pstep : Nat → List Frame → PState → List Char → Option Json
  | 0, _, _, _ => none
  | Nat.succ fuel, stk, PState.pvalue, cs =>
    match skipWs cs with
    | [] => none
    | c :: rest =>
      if c = lbrace then
        match skipWs rest with
        | c2 :: rest2 =>
          if c2 = rbrace then pstep fuel stk (PState.pdone (Json.obj [])) rest2
          else
            match parseKey (c2 :: rest2) with
            | some (k, rest3) =>
              match skipWs rest3 with
              | ':' :: rest4 => pstep fuel (Frame.fobj [] k :: stk) PState.pvalue rest4
              | _ => none
            | none => none
        | [] => none
      else if c = '[' then
        match skipWs rest with
        | c2 :: rest2 =>
          if c2 = ']' then pstep fuel stk (PState.pdone (Json.arr [])) rest2
          else pstep fuel (Frame.farr [] :: stk) PState.pvalue (c2 :: rest2)
        | [] => none
      else if c = '"' then
        match strChars rest with
        | some (s, rest2) => pstep fuel stk (PState.pdone (Json.str (String.mk s))) rest2
        | none => none
      else if c = 'n' then
        match rest with
        | 'u' :: 'l' :: 'l' :: rest2 => pstep fuel stk (PState.pdone Json.null) rest2
        | _ => none
      else if c = 't' then
        match rest with
        | 'r' :: 'u' :: 'e' :: rest2 => pstep fuel stk (PState.pdone (Json.bool true)) rest2
        | _ => none
      else if c = 'f' then
        match rest with
        | 'a' :: 'l' :: 's' :: 'e' :: rest2 => pstep fuel stk (PState.pdone (Json.bool false)) rest2
        | _ => none
      else
        match parseNum (c :: rest) with
        | some (v, rest2) => pstep fuel stk (PState.pdone v) rest2
        | none => none
  | Nat.succ fuel, stk, PState.pdone v, cs =>
    match stk with
    | [] => if (skipWs cs).isEmpty then some v else none
    | Frame.fobj acc k :: stk2 =>
      match skipWs cs with
      | c :: rest =>
        if c = ',' then
          match parseKey rest with
          | some (k2, rest2) =>
            match skipWs rest2 with
            | ':' :: rest3 =>
              pstep fuel (Frame.fobj (acc ++ [(k, v)]) k2 :: stk2) PState.pvalue rest3
            | _ => none
          | none => none
        else if c = rbrace then
          pstep fuel stk2 (PState.pdone (Json.obj (acc ++ [(k, v)]))) rest
        else none
      | [] => none
    | Frame.farr acc :: stk2 =>
      match skipWs cs with
      | c :: rest =>
        if c = ',' then pstep fuel (Frame.farr (acc ++ [v]) :: stk2) PState.pvalue rest
        else if c = ']' then pstep fuel stk2 (PState.pdone (Json.arr (acc ++ [v]))) rest
        else none
      | [] => none

/-- JSON.parse on a character list: run the machine with sufficient fuel and
require the whole input (up to trailing whitespace) to be consumed. -/
def JsonParse (cs : List Char) : Option Json :=
  pstep (cs.length + 1) [] PState.pvalue cs

/-- Property access on a JSON value as in JavaScript: a field lookup on an
object, undefined (`none`) otherwise.  (Accessing a property of null is a
TypeError; callers guard that case separately.) -/
def jget (j : Json) (k : String) : Option Json :=
  match j with
  | Json.obj fields => (fields.find? (fun kv => kv.1 = k)).map (fun kv => kv.2)
  | _ => none

/-- Index 0 of a JSON value as in `choices[0]`: the head of an array,
undefined otherwise. -/
def jidx0 (j : Json) : Option Json :=
  match j with
  | Json.arr (x :: _) => some x
  | _ => none

/-- One step of JavaScript optional chaining: short-circuit to undefined when
the current value is undefined or null, otherwise apply the accessor. -/
def chainStep (v : Option Json) (f : Json → Option Json) : Option Json :=
  match v with
  | none => none
  | some Json.null => none
  | some j => f j

/-- JavaScript truthiness of a JSON value. -/
def truthy (j : Json) : Bool :=
  match j with
  | Json.null => false
  | Json.bool b => b
  | Json.num n => n ≠ 0
  | Json.str s => s ≠ ""
  | Json.arr _ => true
  | Json.obj _ => true

/-- The value of the expression fetching choices[0].message.content from a
non-null gateway success body, before the empty-string default is applied. -/
def contentRaw (data : Json) : Option Json :=
  chainStep (chainStep (chainStep (jget data "choices") jidx0) (jget · "message")) (jget · "content")

/-- The completion value each handler computes from the gateway success body:
choices[0].message.content with missing or falsy values replaced by the empty
string, as the or-empty-string default in the source does. -/
def contentVal (data : Json) : Json :=
  match contentRaw data with
  | some v => if truthy v then v else Json.str ""
  | none => Json.str ""

/-- The shared extraction step wrapped in try/catch at every call site: when
the completion is a string, take the greedy brace span and JSON.parse it; a
missing span yields the feature's no-match fallback, a failed parse the
feature's catch fallback (the thrown parse error is swallowed).  A non-string
completion value makes the regex-match call itself throw inside the same
try, landing in the catch fallback with the raw value. -/
def extractStep (fbN fbC : Json → Json) (content : Json) : Json :=
  match content with
  | Json.str s =>
    match jsonSpan s.data with
    | some span =>
      match JsonParse span with
      | some v => v
      | none => fbC (Json.str s)
    | none => fbN (Json.str s)
  | v => fbC v

/-- The CORS headers declared identically at the top of all five handler
files: wildcard origin and the fixed allowed-header list. -/
def corsHeaders : List (String × String) :=
  [("Access-Control-Allow-Origin", "*"),
   ("Access-Control-Allow-Headers", "authorization, x-client-info, apikey, content-type")]

/-- Headers of every non-OPTIONS response: the CORS headers with the JSON
content type spread on top. -/
def jsonHeaders : List (String × String) :=
  corsHeaders ++ [("Content-Type", "application/json")]

/-- An HTTP response as observed by the caller: status, optional JSON body
(none for the empty pre-flight body), and headers. -/
structure HttpResponse where
  status : Nat
  body : Option Json
  headers : List (String × String)

/-- The chat-completion request a handler sends to the gateway. -/
structure GatewayReq where
  model : String
  messages : List (String × String)

/-- The gateway's observable outcome: a 2xx response with a parsed JSON body,
or a non-ok HTTP status. -/
inductive GatewayResult where
  | ok : Json → GatewayResult
  | err : Nat → GatewayResult

/-- What one handler invocation produced: the HTTP response, how many gateway
calls were made, and the request sent, if any. -/
structure HandlerOutcome where
  response : HttpResponse
  gatewayCalls : Nat
  gatewayRequest : Option GatewayReq

/-- An error payload in the form used by every error response. -/
def errObj (msg : String) : Json := Json.obj [("error", Json.str msg)]

/-- The fixed model identifier sent by every handler. -/
def gatewayModel : String := "google/gemini-2.5-flash"

/-- The configuration-error message thrown when the credential is absent. -/
def cfgErrMsg : String := "LOVABLE_API_KEY is not configured"

/-- The fixed rate-limit message. -/
def rateLimitMsg : String := "Rate limit exceeded. Please try again later."

/-- The fixed credits-exhausted message (job assistant only). -/
def creditsMsg : String := "AI credits exhausted. Please add funds."

/-- Modelled text of the runtime TypeError raised when the gateway returns a
200 with JSON body null and the handler reads a property of it; the exact
wording is platform-defined and no claim depends on it. -/
def nullChoicesErrMsg : String := "Cannot read properties of null (reading \x27choices\x27)"

/-- The shared request-handler pipeline instantiated by all five features:
check the credential (throwing to the catch-all 500 when absent, with no
gateway call), otherwise send the built messages to the gateway once; map
429 (and, where enabled, 402) to their fixed payloads, other non-ok statuses
to the generic thrown error caught as a 500, and a success body through the
content default and the extraction step to a 200. -/
def runHandler {β : Type} (buildMessages : β → List (String × String))
    (fbN fbC : Json → Json) (handle402 : Bool)
    (apiKey : Option String) (b : β) (gw : GatewayResult) : HandlerOutcome :=
  match apiKey with
  | none => ⟨⟨500, some (errObj cfgErrMsg), jsonHeaders⟩, 0, none⟩
  | some _ =>
    let req : GatewayReq := ⟨gatewayModel, buildMessages b⟩
    match gw with
    | GatewayResult.err s =>
      if s = 429 then ⟨⟨429, some (errObj rateLimitMsg), jsonHeaders⟩, 1, some req⟩
      else if handle402 && s = 402 then ⟨⟨402, some (errObj creditsMsg), jsonHeaders⟩, 1, some req⟩
      else ⟨⟨500, some (errObj ("AI gateway error: " ++ toString s)), jsonHeaders⟩, 1, some req⟩
    | GatewayResult.ok data =>
      match data with
      | Json.null => ⟨⟨500, some (errObj nullChoicesErrMsg), jsonHeaders⟩, 1, some req⟩
      | d => ⟨⟨200, some (extractStep fbN fbC (contentVal d)), jsonHeaders⟩, 1, some req⟩

/-- A request to a handler: the pre-flight method, or a POST whose JSON body
destructured into the feature's expected fields. -/
inductive HRequest (β : Type) where
  | options : HRequest β
  | post : β → HRequest β

/-- The response to the pre-flight method: empty body, default 200 status,
exactly the CORS headers. -/
def optionsOutcome : HandlerOutcome := ⟨⟨200, none, corsHeaders⟩, 0, none⟩

/-- One habit row as sent in the habit-insights request body. -/
structure HabitEntry where
  name : String
  frequency : String

/-- One log row as sent in the habit-insights request body. -/
structure LogEntry where
  habit_name : String
  logged_at : String
  completed : Bool
  notes : Option String

/-- The habit-insights request body after destructuring. -/
structure HabitBody where
  habits : List HabitEntry
  logs : List LogEntry

/-- The ATS-optimizer request body after destructuring. -/
structure AtsBody where
  resumeContent : String
  targetRole : String

/-- One knowledge-base row as sent in the support-chat request body. -/
structure KbEntry where
  title : String
  content : String

/-- The support-chat request body after destructuring; history entries are
(role, content) pairs. -/
structure SupportBody where
  message : String
  conversationHistory : List (String × String)
  knowledgeBase : List KbEntry

/-- One document as sent in the knowledge-query request body. -/
structure DocEntry where
  title : String
  content : String

/-- The knowledge-query request body after destructuring. -/
structure KnowledgeBody where
  query : String
  documents : List DocEntry

/-- The optional settings object of the job-assistant request body. -/
structure JobSettings where
  tone : Option String
  coverLetterLength : Option String

/-- The job-assistant request body after destructuring. -/
structure JobBody where
  resumeContent : String
  jobDescription : String
  settings : Option JobSettings

/-- JavaScript or-default on an optional string: missing, null and the empty
string all fall back to the default. -/
def jsOrStr (v : Option String) (dflt : String) : String :=
  match v with
  | some s => if s = "" then dflt else s
  | none => dflt

/-- The fixed system prompt of the habit-insights handler. -/
def habitSystemPrompt : String :=
  "You are a supportive habit tracking coach. Analyze the user\x27s habit data and provide personalized, actionable insights.\n\nBe encouraging but honest. Identify patterns, suggest improvements, and celebrate wins.\n\nProvide 2-4 specific insights in JSON format:\n\x7b\n  \"insights\": [\n    \x7b\n      \"type\": \"pattern\" | \"suggestion\" | \"encouragement\",\n      \"message\": \"Your insight here\"\n    \x7d\n  ],\n  \"overallScore\": 0-100,\n  \"topPerformingHabit\": \"habit name or null\",\n  \"needsAttention\": \"habit name or null\"\n\x7d"

/-- The habits listing interpolated into the habit-insights user prompt. -/
def habitsInfo (habits : List HabitEntry) : String :=
  String.intercalate "\n" (habits.map (fun h => "- " ++ h.name ++ " (" ++ h.frequency ++ ")"))

/-- The logs listing interpolated into the habit-insights user prompt. -/
def logsInfo (logs : List LogEntry) : String :=
  String.intercalate "\n" (logs.map (fun l =>
    l.habit_name ++ " on " ++ l.logged_at ++ ": " ++
    (if l.completed then "✓ Completed" else "✗ Missed") ++
    (match l.notes with
     | some n => if n = "" then "" else " - \"" ++ n ++ "\""
     | none => "")))

/-- The habit-insights user prompt, with the or-default placeholder when no
log lines were produced. -/
def habitUserPrompt (b : HabitBody) : String :=
  "Analyze these habit tracking patterns:\n\nHabits being tracked:\n" ++ habitsInfo b.habits ++
  "\n\nRecent activity (last 14 days):\n" ++
  (if logsInfo b.logs = "" then "No logs yet" else logsInfo b.logs) ++
  "\n\nProvide personalized insights."

/-- The message list the habit-insights handler sends to the gateway. -/
def habitMessages (b : HabitBody) : List (String × String) :=
  [("system", habitSystemPrompt), ("user", habitUserPrompt b)]

/-- The fixed system prompt of the ATS-optimizer handler. -/
def atsSystemPrompt : String :=
  "You are an ATS (Applicant Tracking System) expert. Analyze resumes for ATS compatibility and provide optimization suggestions.\n\nEvaluate:\n1. Keyword optimization for the target role\n2. Formatting and structure\n3. Quantifiable achievements\n4. Skills alignment\n\nRespond in JSON format:\n\x7b\n  \"score\": 0-100,\n  \"missingKeywords\": [\"keyword1\", \"keyword2\"],\n  \"weakSections\": [\"section1\", \"section2\"],\n  \"suggestions\": [\n    \x7b\n      \"category\": \"keywords\" | \"format\" | \"content\" | \"structure\",\n      \"priority\": \"high\" | \"medium\" | \"low\",\n      \"suggestion\": \"specific suggestion\"\n    \x7d\n  ],\n  \"optimizedSummary\": \"An ATS-optimized professional summary\",\n  \"optimizedBullets\": [\"optimized bullet 1\", \"optimized bullet 2\"]\n\x7d"

/-- The ATS-optimizer user prompt. -/
def atsUserPrompt (b : AtsBody) : String :=
  "Analyze this resume for the role: " ++ b.targetRole ++ "\n\nResume Content:\n" ++
  b.resumeContent ++ "\n\nProvide ATS analysis and optimization suggestions."

/-- The message list the ATS-optimizer handler sends to the gateway. -/
def atsMessages (b : AtsBody) : List (String × String) :=
  [("system", atsSystemPrompt), ("user", atsUserPrompt b)]

/-- The knowledge-base context block of the support-chat system prompt; empty
when no knowledge-base rows were sent. -/
def kbContext (kb : List KbEntry) : String :=
  match kb with
  | [] => ""
  | _ => "\nKnowledge Base:\n" ++
      String.intercalate "\n" (kb.map (fun e => "- " ++ e.title ++ ": " ++ e.content))

/-- The support-chat system prompt with the knowledge-base context spliced
in. -/
def supportSystemPrompt (kb : List KbEntry) : String :=
  "You are a helpful, professional customer support agent. Your goal is to:\n1. Answer questions accurately using the provided knowledge base\n2. Be friendly and empathetic\n3. Escalate to a human when you cannot help\n4. Create tickets for complex issues\n\n" ++
  kbContext kb ++
  "\n\nIf you cannot answer from the knowledge base, politely say so and offer to escalate.\n\nRespond in JSON format:\n\x7b\n  \"reply\": \"Your response to the customer\",\n  \"shouldEscalate\": false,\n  \"suggestedTicketPriority\": \"low\" | \"medium\" | \"high\" | null,\n  \"sentiment\": \"positive\" | \"neutral\" | \"negative\"\n\x7d"

/-- The message list the support-chat handler sends: system prompt, the
relayed conversation history, then the new user message. -/
def supportMessages (b : SupportBody) : List (String × String) :=
  ("system", supportSystemPrompt b.knowledgeBase) :: b.conversationHistory ++ [("user", b.message)]

/-- The documents context block of the knowledge-query system prompt, with
one-based bracketed numbering. -/
def docsContext (docs : List DocEntry) : String :=
  match docs with
  | [] => "No documents available."
  | _ => String.intercalate "\n\n" (docs.enum.map (fun p =>
      "[" ++ toString (p.1 + 1) ++ "] " ++ p.2.title ++ ":\n" ++ p.2.content))

/-- The knowledge-query system prompt with the documents spliced in. -/
def knowledgeSystemPrompt (docs : List DocEntry) : String :=
  "You are a knowledge assistant. Answer questions based on the provided documents.\n\nRules:\n1. Only use information from the provided documents\n2. Cite sources using [1], [2], etc.\n3. If the answer isn\x27t in the documents, say so clearly\n4. Generate action items when relevant\n5. Be concise but thorough\n\nDocuments:\n" ++
  docsContext docs ++
  "\n\nRespond in JSON format:\n\x7b\n  \"answer\": \"Your answer with [citations]\",\n  \"citations\": [1, 2],\n  \"summary\": \"Brief summary if applicable\",\n  \"actionItems\": [\"action 1\", \"action 2\"],\n  \"confidence\": \"high\" | \"medium\" | \"low\"\n\x7d"

/-- The message list the knowledge-query handler sends to the gateway. -/
def knowledgeMessages (b : KnowledgeBody) : List (String × String) :=
  [("system", knowledgeSystemPrompt b.documents), ("user", b.query)]

/-- The job-assistant system prompt with the settings defaults applied. -/
def jobSystemPrompt (settings : Option JobSettings) : String :=
  "You are an expert career coach and resume writer. Help candidates create tailored job application materials.\n\nGiven a resume and job description, generate:\n1. 5-7 tailored resume bullet points highlighting relevant experience\n2. A compelling cover letter (" ++
  jsOrStr (settings.bind (fun s => s.coverLetterLength)) "3-4 paragraphs" ++
  ")\n3. A brief recruiter-friendly summary (2-3 sentences)\n\nUse a " ++
  jsOrStr (settings.bind (fun s => s.tone)) "professional" ++
  " tone. Be specific and quantify achievements where possible.\n\nRespond in JSON format:\n\x7b\n  \"bullets\": [\"bullet1\", \"bullet2\", ...],\n  \"coverLetter\": \"full cover letter text\",\n  \"summary\": \"brief summary\"\n\x7d"

/-- The job-assistant user prompt. -/
def jobUserPrompt (b : JobBody) : String :=
  "Resume Content:\n" ++ b.resumeContent ++ "\n\nJob Description:\n" ++ b.jobDescription ++
  "\n\nGenerate tailored application materials."

/-- The message list the job-assistant handler sends to the gateway. -/
def jobMessages (b : JobBody) : List (String × String) :=
  [("system", jobSystemPrompt b.settings), ("user", jobUserPrompt b)]

/-- Habit-insights fallback, used by both the no-match and the catch branch:
the raw completion becomes the message of a single suggestion insight. -/
def habitFallback (c : Json) : Json :=
  Json.obj [("insights", Json.arr [Json.obj [("type", Json.str "suggestion"), ("message", c)]])]

/-- ATS-optimizer fallback of the no-match branch: score 50 and empty
suggestions, with no field carrying the raw completion. -/
def atsFallbackNoMatch (_ : Json) : Json :=
  Json.obj [("score", Json.num 50), ("suggestions", Json.arr [])]

/-- ATS-optimizer fallback of the catch branch: score 50, empty suggestions,
and the raw completion under rawAnalysis. -/
def atsFallbackCatch (c : Json) : Json :=
  Json.obj [("score", Json.num 50), ("suggestions", Json.arr []), ("rawAnalysis", c)]

/-- Support-chat fallback, both branches: the raw completion as the reply. -/
def supportFallback (c : Json) : Json :=
  Json.obj [("reply", c), ("shouldEscalate", Json.bool false)]

/-- Knowledge-query fallback, both branches: the raw completion as the
answer. -/
def knowledgeFallback (c : Json) : Json :=
  Json.obj [("answer", c), ("citations", Json.arr []), ("confidence", Json.str "medium")]

/-- Job-assistant fallback, both branches: the raw completion as the cover
letter. -/
def jobFallback (c : Json) : Json :=
  Json.obj [("bullets", Json.arr []), ("coverLetter", c), ("summary", Json.str "")]

/-- The habit-insights handler on a POST body. -/
def habitInsightsPost : Option String → HabitBody → GatewayResult → HandlerOutcome :=
  runHandler habitMessages habitFallback habitFallback false

/-- The ATS-optimizer handler on a POST body. -/
def atsOptimizerPost : Option String → AtsBody → GatewayResult → HandlerOutcome :=
  runHandler atsMessages atsFallbackNoMatch atsFallbackCatch false

/-- The support-chat handler on a POST body. -/
def supportChatPost : Option String → SupportBody → GatewayResult → HandlerOutcome :=
  runHandler supportMessages supportFallback supportFallback false

/-- The knowledge-query handler on a POST body. -/
def knowledgeQueryPost : Option String → KnowledgeBody → GatewayResult → HandlerOutcome :=
  runHandler knowledgeMessages knowledgeFallback knowledgeFallback false

/-- The job-assistant handler on a POST body; the only handler with the 402
branch. -/
def jobAssistantPost : Option String → JobBody → GatewayResult → HandlerOutcome :=
  runHandler jobMessages jobFallback jobFallback true

/-- The habit-insights handler including the pre-flight branch, which runs
before the credential check. -/
def handleHabitInsights (key : Option String) (req : HRequest HabitBody)
    (gw : GatewayResult) : HandlerOutcome :=
  match req with
  | HRequest.options => optionsOutcome
  | HRequest.post b => habitInsightsPost key b gw

/-- The ATS-optimizer handler including the pre-flight branch. -/
def handleAtsOptimizer (key : Option String) (req : HRequest AtsBody)
    (gw : GatewayResult) : HandlerOutcome :=
  match req with
  | HRequest.options => optionsOutcome
  | HRequest.post b => atsOptimizerPost key b gw

/-- The support-chat handler including the pre-flight branch. -/
def handleSupportChat (key : Option String) (req : HRequest SupportBody)
    (gw : GatewayResult) : HandlerOutcome :=
  match req with
  | HRequest.options => optionsOutcome
  | HRequest.post b => supportChatPost key b gw

/-- The knowledge-query handler including the pre-flight branch. -/
def handleKnowledgeQuery (key : Option String) (req : HRequest KnowledgeBody)
    (gw : GatewayResult) : HandlerOutcome :=
  match req with
  | HRequest.options => optionsOutcome
  | HRequest.post b => knowledgeQueryPost key b gw

/-- The job-assistant handler including the pre-flight branch. -/
def handleJobAssistant (key : Option String) (req : HRequest JobBody)
    (gw : GatewayResult) : HandlerOutcome :=
  match req with
  | HRequest.options => optionsOutcome
  | HRequest.post b => jobAssistantPost key b gw

/-- A gateway success body of the usual shape, wrapping a string completion
under choices[0].message.content. -/
def mkChoices (content : String) : Json :=
  Json.obj [("choices", Json.arr [Json.obj [("message", Json.obj [("content", Json.str content)])]])]

/-- Whether one character list is a prefix of another, computably. -/
def isPrefixB : List Char → List Char → Bool
  | [], _ => true
  | _ :: _, [] => false
  | a :: as, b :: bs => a = b && isPrefixB as bs

/-- Whether the pattern occurs as a contiguous substring of the text,
computably. -/
def containsSub (pat : List Char) : List Char → Bool
  | [] => pat.isEmpty
  | c :: rest => isPrefixB pat (c :: rest) || containsSub pat rest

/-- Whether a JSON object has any string-valued field (the shape a
human-readable raw-text field would take). -/
def hasStrField (j : Json) : Bool :=
  match j with
  | Json.obj fields =>
    fields.any (fun kv =>
      match kv.2 with
      | Json.str _ => true
      | _ => false)
  | _ => false

/-- A habit-log row as held in the habit-tracker screen's local state. -/
structure HabitLogRow where
  id : String
  habit_id : String
  logged_at : String
  completed : Bool
deriving DecidableEq

/-- One observable effect of the toggle operation, in execution order:
a database update or insert, a local state assignment, or a toast. -/
inductive ToggleEvent where
  | dbUpdate : String → Bool → ToggleEvent
  | dbInsert : String → Bool → String → ToggleEvent
  | setLogsState : List HabitLogRow → ToggleEvent
  | toastError : ToggleEvent
  | toastSuccess : ToggleEvent
deriving DecidableEq

/-- Whether an event is a local state assignment. -/
def isSetLogsB : ToggleEvent → Bool
  | ToggleEvent.setLogsState _ => true
  | _ => false

/-- Whether an event is a database write. -/
def isDbWriteB : ToggleEvent → Bool
  | ToggleEvent.dbUpdate _ _ => true
  | ToggleEvent.dbInsert _ _ _ => true
  | _ => false

/-- The habit-tracker screen's toggle operation: look for today's log of the
habit; update (flipping completed) or insert a completed log, awaiting the
database write; only on success assign the new local logs state and maybe
toast success, on failure toast the error and leave local state untouched.
`dbFails` is the awaited write's outcome and `insertedId` the id of the row
the insert path would return.  Returns the ordered effect trace and the final
local logs state. -/
def toggleHabit (logs : List HabitLogRow) (habitId today : String)
    (dbFails : Bool) (insertedId : String) : List ToggleEvent × List HabitLogRow :=
  match logs.find? (fun l => l.habit_id = habitId && l.logged_at = today) with
  | some existingLog =>
    if dbFails then
      ([ToggleEvent.dbUpdate existingLog.id (!existingLog.completed), ToggleEvent.toastError], logs)
    else
      let newLogs := logs.map (fun l =>
        if l.id = existingLog.id then { l with completed := !l.completed } else l)
      ([ToggleEvent.dbUpdate existingLog.id (!existingLog.completed),
        ToggleEvent.setLogsState newLogs] ++
       (if !existingLog.completed then [ToggleEvent.toastSuccess] else []), newLogs)
  | none =>
    if dbFails then
      ([ToggleEvent.dbInsert habitId true today, ToggleEvent.toastError], logs)
    else
      let row : HabitLogRow := ⟨insertedId, habitId, today, true⟩
      ([ToggleEvent.dbInsert habitId true today, ToggleEvent.setLogsState (logs ++ [row]),
        ToggleEvent.toastSuccess], logs ++ [row])

/-- The habit-insights request body of the end-to-end scenario: one daily
habit named Meditate with one completed log. -/
def c4Body : HabitBody :=
  ⟨[⟨"Meditate", "daily"⟩], [⟨"Meditate", "2024-01-01", true, none⟩]⟩

/-- The mocked completion of the end-to-end habit-insights scenario. -/
def c4Completion : String :=
  "\x7b\"insights\":[\x7b\"type\":\"encouragement\",\"message\":\"Great job!\"\x7d],\"overallScore\":80,\"topPerformingHabit\":\"Meditate\",\"needsAttention\":null\x7d"

/-- The parse of the mocked completion of the habit-insights scenario. -/
def c4Expected : Json :=
  Json.obj [("insights", Json.arr [Json.obj [("type", Json.str "encouragement"),
              ("message", Json.str "Great job!")]]),
            ("overallScore", Json.num 80),
            ("topPerformingHabit", Json.str "Meditate"),
            ("needsAttention", Json.null)]

/-- Prepending characters free of the sought character shifts the first-index
search by the prefix length. -/
lemma firstIdxOf_append_of_not_mem (c : Char) (p rest : List Char) (h : c ∉ p) :
    firstIdxOf c (p ++ rest) = (firstIdxOf c rest).map (· + p.length) := by
  induction p with
  | nil => simp
  | cons a p2 ih =>
    have ha : ¬ a = c := by
      intro e
      exact h (by simp [e])
    have h2 : c ∉ p2 := fun hm => h (List.mem_cons_of_mem a hm)
    simp only [List.cons_append, firstIdxOf, if_neg ha, List.append_eq]
    rw [ih h2]
    cases firstIdxOf c rest <;> simp [Nat.add_assoc]

/-- When a braced text is wrapped in brace-free prose on both sides, the
greedy regex span is exactly the braced text: the first opening brace of the
whole string opens it and the last closing brace closes it. -/
lemma jsonSpan_wrapped (p j s : List Char)
    (hp : lbrace ∉ p) (hs : rbrace ∉ s)
    (hh : j.head? = some lbrace) (hl : j.getLast? = some rbrace) :
    jsonSpan (p ++ j ++ s) = some j := by
  obtain ⟨jt, rfl⟩ : ∃ jt, j = lbrace :: jt := by
    cases j with
    | nil => cases hh
    | cons a t =>
      refine ⟨t, ?_⟩
      injection hh with h1
      rw [h1]
  obtain ⟨ji, heq⟩ : ∃ ji, lbrace :: jt = ji ++ [rbrace] :=
    List.getLast?_eq_some_iff.mp hl
  have hjt : jt ≠ [] := by
    intro e
    subst e
    simp at hl
    exact absurd hl (by decide)
  have hfirst : firstIdxOf lbrace (p ++ (lbrace :: jt) ++ s) = some p.length := by
    rw [List.append_assoc, firstIdxOf_append_of_not_mem _ _ _ hp]
    simp [firstIdxOf]
  have hrev : (p ++ (lbrace :: jt) ++ s).reverse
      = s.reverse ++ ((rbrace :: ji.reverse) ++ p.reverse) := by
    rw [heq]
    simp
  have hsrev : rbrace ∉ s.reverse := fun hm => hs (List.mem_reverse.mp hm)
  have hlastfirst : firstIdxOf rbrace (p ++ (lbrace :: jt) ++ s).reverse
      = some s.length := by
    rw [hrev, firstIdxOf_append_of_not_mem _ _ _ hsrev]
    simp [firstIdxOf]
  have hlen : (p ++ (lbrace :: jt) ++ s).length = p.length + jt.length + 1 + s.length := by
    simp [List.length_append]
    omega
  have hlast : lastIdxOf rbrace (p ++ (lbrace :: jt) ++ s) = some (p.length + jt.length) := by
    rw [lastIdxOf, hlastfirst, hlen]
    simp
  have hlt : p.length < p.length + jt.length := by
    have : 0 < jt.length := List.length_pos.mpr hjt
    omega
  rw [jsonSpan, hfirst, hlast]
  dsimp only
  rw [if_pos hlt]
  have harith : p.length + jt.length - p.length + 1 = jt.length + 1 := by omega
  rw [harith]
  rw [List.append_assoc]
  have hdrop : List.drop p.length (p ++ (lbrace :: jt ++ s)) = lbrace :: jt ++ s :=
    List.drop_left p (lbrace :: jt ++ s)
  have hcons : lbrace :: jt ++ s = (lbrace :: jt) ++ s := by simp
  have htake : List.take (jt.length + 1) ((lbrace :: jt) ++ s) = lbrace :: jt := by
    have hl2 : (lbrace :: jt).length = jt.length + 1 := by simp
    rw [← hl2, List.take_left]
  rw [hdrop, hcons, htake]

/-- On a gateway success with a non-null body, the pipeline returns 200 with
the extraction of the defaulted completion, after exactly one gateway
call. -/
lemma runHandler_ok {β : Type} (bm : β → List (String × String)) (fbN fbC : Json → Json)
    (h4 : Bool) (key : String) (b : β) (data : Json) (hd : data ≠ Json.null) :
    runHandler bm fbN fbC h4 (some key) b (GatewayResult.ok data)
      = ⟨⟨200, some (extractStep fbN fbC (contentVal data)), jsonHeaders⟩, 1,
         some ⟨gatewayModel, bm b⟩⟩ := by
  cases data with
  | null => exact absurd rfl hd
  | bool b2 => rfl
  | num n => rfl
  | str s2 => rfl
  | arr xs => rfl
  | obj fs => rfl

/-- Every non-OPTIONS response of the pipeline carries exactly the CORS
headers plus the JSON content type, on every branch. -/
lemma runHandler_headers {β : Type} (bm : β → List (String × String)) (fbN fbC : Json → Json)
    (h4 : Bool) (key : Option String) (b : β) (gw : GatewayResult) :
    (runHandler bm fbN fbC h4 key b gw).response.headers = jsonHeaders := by
  cases key with
  | none => rfl
  | some k =>
    cases gw with
    | ok data => cases data <;> rfl
    | err s =>
      simp only [runHandler]
      split
      · rfl
      · split
        · rfl
        · rfl

/-- C1: for every feature's extractor (any no-match and catch fallbacks),
when the completion is brace-free prose around one well-formed JSON object
text — so the only braces of the whole text are the ones inside that object —
the extraction step returns exactly the parsed object, unmodified and with
no schema validation (the result is whatever object the text parses to). -/
theorem claim1_extract_exact_object (fbN fbC : Json → Json) (p j s : List Char) (v : Json)
    (hp1 : lbrace ∉ p) (_hp2 : rbrace ∉ p) (_hs1 : lbrace ∉ s) (hs2 : rbrace ∉ s)
    (hh : j.head? = some lbrace) (hl : j.getLast? = some rbrace)
    (hparse : JsonParse j = some v) :
    extractStep fbN fbC (Json.str (String.mk (p ++ j ++ s))) = v := by
  have hspan : jsonSpan (p ++ j ++ s) = some j := jsonSpan_wrapped p j s hp1 hs2 hh hl
  simp only [extractStep]
  rw [hspan]
  dsimp only
  rw [hparse]

/-- Witness for C1 at a concrete prose-wrapped object. -/
theorem claim1_witness :
    extractStep (fun _ => Json.null) (fun _ => Json.null)
      (Json.str (String.mk ("Answer: ".data ++ "\x7b\"a\": 1\x7d".data ++ " ok".data)))
      = Json.obj [("a", Json.num 1)] :=
  claim1_extract_exact_object (fun _ => Json.null) (fun _ => Json.null) _ _ _ _
    (by decide) (by decide) (by decide) (by decide) (by decide) (by decide) (by rfl)

/-- C2 counterexample: on the documented malformed ATS completion, which has
no brace pair, the response body is the no-match fallback without any
rawAnalysis field, not the claimed object carrying the raw text. -/
theorem claim2_counterexample :
    (atsOptimizerPost (some "key") ⟨"resume", "role"⟩
        (GatewayResult.ok (mkChoices "Sure! Here\x27s your analysis: not json"))).response.body
      = some (Json.obj [("score", Json.num 50), ("suggestions", Json.arr [])])
    ∧ some (Json.obj [("score", Json.num 50), ("suggestions", Json.arr [])])
      ≠ some (Json.obj [("score", Json.num 50), ("suggestions", Json.arr []),
          ("rawAnalysis", Json.str "Sure! Here\x27s your analysis: not json")]) := by
  constructor
  · rfl
  · simp

/-- C2 (amended): on a completion with no brace pair, support chat, habit
insights, knowledge query and job assistant return fallbacks embedding the
raw text verbatim (reply, message, answer, coverLetter); the ATS optimizer
returns score 50 with empty suggestions and no raw-text field, and on the
documented malformed completion its response is 200 with exactly that
object — rawAnalysis appears only in its parse-failure catch branch. -/
theorem claim2_no_brace_fallbacks (content : String)
    (hnospan : jsonSpan content.data = none) :
    extractStep supportFallback supportFallback (Json.str content)
      = Json.obj [("reply", Json.str content), ("shouldEscalate", Json.bool false)]
    ∧ extractStep habitFallback habitFallback (Json.str content)
      = Json.obj [("insights", Json.arr [Json.obj [("type", Json.str "suggestion"),
          ("message", Json.str content)]])]
    ∧ extractStep knowledgeFallback knowledgeFallback (Json.str content)
      = Json.obj [("answer", Json.str content), ("citations", Json.arr []),
          ("confidence", Json.str "medium")]
    ∧ extractStep jobFallback jobFallback (Json.str content)
      = Json.obj [("bullets", Json.arr []), ("coverLetter", Json.str content),
          ("summary", Json.str "")]
    ∧ extractStep atsFallbackNoMatch atsFallbackCatch (Json.str content)
      = Json.obj [("score", Json.num 50), ("suggestions", Json.arr [])]
    ∧ (atsOptimizerPost (some "key") ⟨"resume", "role"⟩
        (GatewayResult.ok (mkChoices "Sure! Here\x27s your analysis: not json"))).response.status
      = 200
    ∧ (atsOptimizerPost (some "key") ⟨"resume", "role"⟩
        (GatewayResult.ok (mkChoices "Sure! Here\x27s your analysis: not json"))).response.body
      = some (Json.obj [("score", Json.num 50), ("suggestions", Json.arr [])]) := by
  refine ⟨?_, ?_, ?_, ?_, ?_, rfl, rfl⟩ <;>
    (simp only [extractStep]; rw [hnospan]; rfl)

/-- Witness for C2 (amended) at a brace-free completion. -/
theorem claim2_witness :
    extractStep supportFallback supportFallback (Json.str "just prose")
      = Json.obj [("reply", Json.str "just prose"), ("shouldEscalate", Json.bool false)] :=
  (claim2_no_brace_fallbacks "just prose" (by rfl)).1

/-- C3: the extraction step is total — for every fallback pair and every
completion text it returns the parsed span, the catch fallback or the
no-match fallback, never propagating a parse error — and on any gateway
success wrapping any completion text every one of the five handlers responds
with status 200, never reaching the 500 path. -/
theorem claim3_extraction_never_throws :
    (∀ (fbN fbC : Json → Json) (content : String),
      extractStep fbN fbC (Json.str content) = fbN (Json.str content)
      ∨ extractStep fbN fbC (Json.str content) = fbC (Json.str content)
      ∨ ∃ span v, jsonSpan content.data = some span ∧ JsonParse span = some v
          ∧ extractStep fbN fbC (Json.str content) = v)
    ∧ (∀ (key content : String) (b : HabitBody),
        (habitInsightsPost (some key) b (GatewayResult.ok (mkChoices content))).response.status = 200)
    ∧ (∀ (key content : String) (b : AtsBody),
        (atsOptimizerPost (some key) b (GatewayResult.ok (mkChoices content))).response.status = 200)
    ∧ (∀ (key content : String) (b : SupportBody),
        (supportChatPost (some key) b (GatewayResult.ok (mkChoices content))).response.status = 200)
    ∧ (∀ (key content : String) (b : KnowledgeBody),
        (knowledgeQueryPost (some key) b (GatewayResult.ok (mkChoices content))).response.status = 200)
    ∧ (∀ (key content : String) (b : JobBody),
        (jobAssistantPost (some key) b (GatewayResult.ok (mkChoices content))).response.status = 200) := by
  refine ⟨?_, fun key content b => rfl, fun key content b => rfl, fun key content b => rfl,
    fun key content b => rfl, fun key content b => rfl⟩
  intro fbN fbC content
  rcases hsp : jsonSpan content.data with _ | span
  · left
    simp only [extractStep, hsp]
  · rcases hpv : JsonParse span with _ | v
    · right; left
      simp only [extractStep, hsp, hpv]
    · right; right
      exact ⟨span, v, rfl, hpv, by simp only [extractStep, hsp, hpv]⟩

/-- C4 counterexample: in the end-to-end habit-insights scenario the system
prompt sent to the gateway is the fixed coach prompt, which contains neither
the literal string Meditate nor the word daily — those are interpolated into
the user prompt instead. -/
theorem claim4_counterexample :
    (habitInsightsPost (some "key") c4Body (GatewayResult.ok (mkChoices c4Completion))).gatewayRequest
      = some ⟨gatewayModel, [("system", habitSystemPrompt), ("user", habitUserPrompt c4Body)]⟩
    ∧ containsSub "Meditate".data habitSystemPrompt.data = false
    ∧ containsSub "daily".data habitSystemPrompt.data = false := by
  refine ⟨rfl, by decide, by decide⟩

/-- C4 (amended): in the end-to-end habit-insights scenario the gateway is
called exactly once, the user prompt (not the system prompt) contains the
literal string Meditate and the word daily, and on the mocked completion the
response is 200 with that object unchanged. -/
theorem claim4_habit_scenario :
    (habitInsightsPost (some "key") c4Body (GatewayResult.ok (mkChoices c4Completion))).gatewayCalls = 1
    ∧ (habitInsightsPost (some "key") c4Body (GatewayResult.ok (mkChoices c4Completion))).gatewayRequest
      = some ⟨gatewayModel, habitMessages c4Body⟩
    ∧ containsSub "Meditate".data (habitUserPrompt c4Body).data = true
    ∧ containsSub "daily".data (habitUserPrompt c4Body).data = true
    ∧ (habitInsightsPost (some "key") c4Body (GatewayResult.ok (mkChoices c4Completion))).response.status = 200
    ∧ (habitInsightsPost (some "key") c4Body (GatewayResult.ok (mkChoices c4Completion))).response.body
      = some c4Expected := by
  refine ⟨rfl, rfl, by decide, by decide, rfl, by rfl⟩

/-- C5: in each of the five handlers, a gateway 429 yields a response whose
status is exactly 429 and whose body is the fixed rate-limit error object. -/
theorem claim5_rate_limit_429 (key : String) (hb : HabitBody) (ab : AtsBody)
    (sb : SupportBody) (kb : KnowledgeBody) (jb : JobBody) :
    ((habitInsightsPost (some key) hb (GatewayResult.err 429)).response.status = 429
      ∧ (habitInsightsPost (some key) hb (GatewayResult.err 429)).response.body
        = some (errObj rateLimitMsg))
    ∧ ((atsOptimizerPost (some key) ab (GatewayResult.err 429)).response.status = 429
      ∧ (atsOptimizerPost (some key) ab (GatewayResult.err 429)).response.body
        = some (errObj rateLimitMsg))
    ∧ ((supportChatPost (some key) sb (GatewayResult.err 429)).response.status = 429
      ∧ (supportChatPost (some key) sb (GatewayResult.err 429)).response.body
        = some (errObj rateLimitMsg))
    ∧ ((knowledgeQueryPost (some key) kb (GatewayResult.err 429)).response.status = 429
      ∧ (knowledgeQueryPost (some key) kb (GatewayResult.err 429)).response.body
        = some (errObj rateLimitMsg))
    ∧ ((jobAssistantPost (some key) jb (GatewayResult.err 429)).response.status = 429
      ∧ (jobAssistantPost (some key) jb (GatewayResult.err 429)).response.body
        = some (errObj rateLimitMsg)) :=
  ⟨⟨rfl, rfl⟩, ⟨rfl, rfl⟩, ⟨rfl, rfl⟩, ⟨rfl, rfl⟩, ⟨rfl, rfl⟩⟩

/-- Witness for C5 at concrete inputs. -/
theorem claim5_witness :
    (jobAssistantPost (some "key") ⟨"resume", "jd", none⟩ (GatewayResult.err 429)).response.status
      = 429 :=
  (claim5_rate_limit_429 "key" ⟨[], []⟩ ⟨"r", "t"⟩ ⟨"m", [], []⟩ ⟨"q", []⟩
    ⟨"resume", "jd", none⟩).2.2.2.2.1

/-- C6: only the job assistant maps a gateway 402 to a 402 response with the
fixed credits-exhausted body; in each of the other four handlers a gateway
402 falls to the generic thrown error and produces a 500 response. -/
theorem claim6_credits_402 (key : String) (hb : HabitBody) (ab : AtsBody)
    (sb : SupportBody) (kb : KnowledgeBody) (jb : JobBody) :
    ((jobAssistantPost (some key) jb (GatewayResult.err 402)).response.status = 402
      ∧ (jobAssistantPost (some key) jb (GatewayResult.err 402)).response.body
        = some (errObj creditsMsg))
    ∧ ((habitInsightsPost (some key) hb (GatewayResult.err 402)).response.status = 500
      ∧ (habitInsightsPost (some key) hb (GatewayResult.err 402)).response.body
        = some (errObj "AI gateway error: 402"))
    ∧ ((atsOptimizerPost (some key) ab (GatewayResult.err 402)).response.status = 500
      ∧ (atsOptimizerPost (some key) ab (GatewayResult.err 402)).response.body
        = some (errObj "AI gateway error: 402"))
    ∧ ((supportChatPost (some key) sb (GatewayResult.err 402)).response.status = 500
      ∧ (supportChatPost (some key) sb (GatewayResult.err 402)).response.body
        = some (errObj "AI gateway error: 402"))
    ∧ ((knowledgeQueryPost (some key) kb (GatewayResult.err 402)).response.status = 500
      ∧ (knowledgeQueryPost (some key) kb (GatewayResult.err 402)).response.body
        = some (errObj "AI gateway error: 402")) :=
  ⟨⟨rfl, rfl⟩, ⟨rfl, rfl⟩, ⟨rfl, rfl⟩, ⟨rfl, rfl⟩, ⟨rfl, rfl⟩⟩

/-- Witness for C6 at concrete inputs. -/
theorem claim6_witness :
    (atsOptimizerPost (some "key") ⟨"r", "t"⟩ (GatewayResult.err 402)).response.status = 500 :=
  (claim6_credits_402 "key" ⟨[], []⟩ ⟨"r", "t"⟩ ⟨"m", [], []⟩ ⟨"q", []⟩
    ⟨"resume", "jd", none⟩).2.2.1.1

/-- C7: with the credential absent, every POST to any of the five handlers
yields exactly the 500 response carrying the configuration-error object, with
zero gateway calls and no request built, whatever the gateway would have
answered. -/
theorem claim7_missing_credential (hb : HabitBody) (ab : AtsBody) (sb : SupportBody)
    (kb : KnowledgeBody) (jb : JobBody) (gw : GatewayResult) :
    habitInsightsPost none hb gw = ⟨⟨500, some (errObj cfgErrMsg), jsonHeaders⟩, 0, none⟩
    ∧ atsOptimizerPost none ab gw = ⟨⟨500, some (errObj cfgErrMsg), jsonHeaders⟩, 0, none⟩
    ∧ supportChatPost none sb gw = ⟨⟨500, some (errObj cfgErrMsg), jsonHeaders⟩, 0, none⟩
    ∧ knowledgeQueryPost none kb gw = ⟨⟨500, some (errObj cfgErrMsg), jsonHeaders⟩, 0, none⟩
    ∧ jobAssistantPost none jb gw = ⟨⟨500, some (errObj cfgErrMsg), jsonHeaders⟩, 0, none⟩ :=
  ⟨rfl, rfl, rfl, rfl, rfl⟩

/-- Witness for C7 at concrete inputs. -/
theorem claim7_witness :
    habitInsightsPost none ⟨[], []⟩ (GatewayResult.err 429)
      = ⟨⟨500, some (errObj cfgErrMsg), jsonHeaders⟩, 0, none⟩ :=
  (claim7_missing_credential ⟨[], []⟩ ⟨"r", "t"⟩ ⟨"m", [], []⟩ ⟨"q", []⟩
    ⟨"resume", "jd", none⟩ (GatewayResult.err 429)).1

/-- C8 counterexample: the pre-flight response carries exactly two CORS
headers, not three. -/
theorem claim8_counterexample :
    (handleHabitInsights (some "key") HRequest.options (GatewayResult.err 500)).response.headers.length = 2
    ∧ (handleHabitInsights (some "key") HRequest.options (GatewayResult.err 500)).response.headers.length ≠ 3 :=
  ⟨rfl, by decide⟩

/-- C8 (amended): every handler answers the pre-flight method with status
200, an empty body and exactly the two CORS headers of the source (wildcard
origin and the fixed allowed-header list), and every non-OPTIONS response on
every branch carries those same CORS headers (followed by the JSON content
type). -/
theorem claim8_cors (key key2 : Option String) (gw gw2 : GatewayResult)
    (hb : HabitBody) (ab : AtsBody) (sb : SupportBody) (kb : KnowledgeBody) (jb : JobBody) :
    (handleHabitInsights key HRequest.options gw).response = ⟨200, none, corsHeaders⟩
    ∧ (handleAtsOptimizer key HRequest.options gw).response = ⟨200, none, corsHeaders⟩
    ∧ (handleSupportChat key HRequest.options gw).response = ⟨200, none, corsHeaders⟩
    ∧ (handleKnowledgeQuery key HRequest.options gw).response = ⟨200, none, corsHeaders⟩
    ∧ (handleJobAssistant key HRequest.options gw).response = ⟨200, none, corsHeaders⟩
    ∧ corsHeaders = [("Access-Control-Allow-Origin", "*"),
        ("Access-Control-Allow-Headers", "authorization, x-client-info, apikey, content-type")]
    ∧ (handleHabitInsights key2 (HRequest.post hb) gw2).response.headers = corsHeaders ++ [("Content-Type", "application/json")]
    ∧ (handleAtsOptimizer key2 (HRequest.post ab) gw2).response.headers = corsHeaders ++ [("Content-Type", "application/json")]
    ∧ (handleSupportChat key2 (HRequest.post sb) gw2).response.headers = corsHeaders ++ [("Content-Type", "application/json")]
    ∧ (handleKnowledgeQuery key2 (HRequest.post kb) gw2).response.headers = corsHeaders ++ [("Content-Type", "application/json")]
    ∧ (handleJobAssistant key2 (HRequest.post jb) gw2).response.headers = corsHeaders ++ [("Content-Type", "application/json")] :=
  ⟨rfl, rfl, rfl, rfl, rfl, rfl,
   runHandler_headers habitMessages habitFallback habitFallback false key2 hb gw2,
   runHandler_headers atsMessages atsFallbackNoMatch atsFallbackCatch false key2 ab gw2,
   runHandler_headers supportMessages supportFallback supportFallback false key2 sb gw2,
   runHandler_headers knowledgeMessages knowledgeFallback knowledgeFallback false key2 kb gw2,
   runHandler_headers jobMessages jobFallback jobFallback true key2 jb gw2⟩

/-- Witness for C8 (amended) at concrete inputs. -/
theorem claim8_witness :
    (handleHabitInsights (some "key") HRequest.options (GatewayResult.err 500)).response
      = ⟨200, none, corsHeaders⟩ :=
  (claim8_cors (some "key") (some "key") (GatewayResult.err 500) (GatewayResult.err 500)
    ⟨[], []⟩ ⟨"r", "t"⟩ ⟨"m", [], []⟩ ⟨"q", []⟩ ⟨"resume", "jd", none⟩).1

/-- C9 counterexample: toggling a habit whose write fails produces only the
database update and an error toast — no local state assignment at all, and
the final local logs equal the initial ones — contradicting both the claimed
optimistic pre-write update and the claimed revert reassignment of mutated
state. -/
theorem claim9_counterexample :
    toggleHabit [⟨"log1", "habit1", "2024-01-01", true⟩] "habit1" "2024-01-01" true "new"
      = ([ToggleEvent.dbUpdate "log1" false, ToggleEvent.toastError],
         [⟨"log1", "habit1", "2024-01-01", true⟩])
    ∧ (toggleHabit [⟨"log1", "habit1", "2024-01-01", true⟩] "habit1" "2024-01-01" true "new").1.all
        (fun e => !(isSetLogsB e)) = true :=
  ⟨rfl, by decide⟩

/-- C9 (amended): the toggle operation issues its database write first in
every case; on a write failure the local log state is left unchanged and no
state assignment (hence no revert) occurs; state is assigned only after the
write resolves successfully. -/
theorem claim9_toggle_not_optimistic (logs : List HabitLogRow)
    (habitId today insertedId : String) :
    (toggleHabit logs habitId today true insertedId).2 = logs
    ∧ (toggleHabit logs habitId today true insertedId).1.all (fun e => !(isSetLogsB e)) = true
    ∧ ∀ dbFails : Bool, ∃ d rest,
        (toggleHabit logs habitId today dbFails insertedId).1 = d :: rest
        ∧ isDbWriteB d = true := by
  rcases hf : logs.find? (fun l => l.habit_id = habitId && l.logged_at = today) with _ | ex
  · refine ⟨?_, ?_, ?_⟩
    · simp [toggleHabit, hf]
    · simp [toggleHabit, hf, isSetLogsB]
    · intro dbFails
      cases dbFails
      · refine ⟨ToggleEvent.dbInsert habitId true today,
          [ToggleEvent.setLogsState (logs ++ [⟨insertedId, habitId, today, true⟩]),
           ToggleEvent.toastSuccess], ?_, rfl⟩
        simp [toggleHabit, hf]
      · refine ⟨ToggleEvent.dbInsert habitId true today, [ToggleEvent.toastError], ?_, rfl⟩
        simp [toggleHabit, hf]
  · refine ⟨?_, ?_, ?_⟩
    · simp [toggleHabit, hf]
    · simp [toggleHabit, hf, isSetLogsB]
    · intro dbFails
      cases dbFails
      · refine ⟨ToggleEvent.dbUpdate ex.id (!ex.completed),
          ToggleEvent.setLogsState (logs.map (fun l =>
            if l.id = ex.id then { l with completed := !l.completed } else l)) ::
            (if !ex.completed then [ToggleEvent.toastSuccess] else []), ?_, rfl⟩
        simp [toggleHabit, hf]
      · refine ⟨ToggleEvent.dbUpdate ex.id (!ex.completed), [ToggleEvent.toastError], ?_, rfl⟩
        simp [toggleHabit, hf]

/-- Witness for C9 (amended) at concrete inputs. -/
theorem claim9_witness :
    (toggleHabit [⟨"L1", "H1", "2024-01-02", false⟩] "H1" "2024-01-02" true "X").2
      = [⟨"L1", "H1", "2024-01-02", false⟩] :=
  (claim9_toggle_not_optimistic [⟨"L1", "H1", "2024-01-02", false⟩] "H1" "2024-01-02" "X").1

/-- C10 counterexample: on a gateway 200 whose body lacks
choices[0].message.content, the ATS optimizer returns the no-match fallback,
an object with no string-valued field at all — so no human-readable field
equal to the empty completion exists. -/
theorem claim10_counterexample :
    (atsOptimizerPost (some "key") ⟨"resume", "role"⟩
        (GatewayResult.ok (Json.obj []))).response.body
      = some (Json.obj [("score", Json.num 50), ("suggestions", Json.arr [])])
    ∧ hasStrField (Json.obj [("score", Json.num 50), ("suggestions", Json.arr [])]) = false
    ∧ contentVal (Json.obj []) = Json.str "" :=
  ⟨rfl, by decide, rfl⟩

/-- C10 (amended): on a gateway 200 with a non-null body whose defaulted
completion is the empty string (content missing, null, or empty), every
handler still responds 200 with its no-match fallback after one gateway
call; support chat, habit insights, knowledge query and job assistant embed
the empty completion in their human-readable field, while the ATS optimizer
returns score 50 with empty suggestions and no raw-text field. -/
theorem claim10_empty_content (key : String) (hb : HabitBody) (ab : AtsBody)
    (sb : SupportBody) (kb : KnowledgeBody) (jb : JobBody) (data : Json)
    (hnn : data ≠ Json.null) (hc : contentVal data = Json.str "") :
    habitInsightsPost (some key) hb (GatewayResult.ok data)
      = ⟨⟨200, some (Json.obj [("insights", Json.arr [Json.obj [("type", Json.str "suggestion"),
            ("message", Json.str "")]])]), jsonHeaders⟩, 1, some ⟨gatewayModel, habitMessages hb⟩⟩
    ∧ atsOptimizerPost (some key) ab (GatewayResult.ok data)
      = ⟨⟨200, some (Json.obj [("score", Json.num 50), ("suggestions", Json.arr [])]),
          jsonHeaders⟩, 1, some ⟨gatewayModel, atsMessages ab⟩⟩
    ∧ supportChatPost (some key) sb (GatewayResult.ok data)
      = ⟨⟨200, some (Json.obj [("reply", Json.str ""), ("shouldEscalate", Json.bool false)]),
          jsonHeaders⟩, 1, some ⟨gatewayModel, supportMessages sb⟩⟩
    ∧ knowledgeQueryPost (some key) kb (GatewayResult.ok data)
      = ⟨⟨200, some (Json.obj [("answer", Json.str ""), ("citations", Json.arr []),
            ("confidence", Json.str "medium")]), jsonHeaders⟩, 1,
          some ⟨gatewayModel, knowledgeMessages kb⟩⟩
    ∧ jobAssistantPost (some key) jb (GatewayResult.ok data)
      = ⟨⟨200, some (Json.obj [("bullets", Json.arr []), ("coverLetter", Json.str ""),
            ("summary", Json.str "")]), jsonHeaders⟩, 1, some ⟨gatewayModel, jobMessages jb⟩⟩ := by
  refine ⟨?_, ?_, ?_, ?_, ?_⟩
  · simp only [habitInsightsPost]
    rw [runHandler_ok habitMessages habitFallback habitFallback false key hb data hnn, hc]
    rfl
  · simp only [atsOptimizerPost]
    rw [runHandler_ok atsMessages atsFallbackNoMatch atsFallbackCatch false key ab data hnn, hc]
    rfl
  · simp only [supportChatPost]
    rw [runHandler_ok supportMessages supportFallback supportFallback false key sb data hnn, hc]
    rfl
  · simp only [knowledgeQueryPost]
    rw [runHandler_ok knowledgeMessages knowledgeFallback knowledgeFallback false key kb data hnn, hc]
    rfl
  · simp only [jobAssistantPost]
    rw [runHandler_ok jobMessages jobFallback jobFallback true key jb data hnn, hc]
    rfl

/-- Witness for C10 (amended) at a concrete content-less gateway body. -/
theorem claim10_witness :
    supportChatPost (some "key") ⟨"msg", [], []⟩ (GatewayResult.ok (Json.obj []))
      = ⟨⟨200, some (Json.obj [("reply", Json.str ""), ("shouldEscalate", Json.bool false)]),
          jsonHeaders⟩, 1, some ⟨gatewayModel, supportMessages ⟨"msg", [], []⟩⟩⟩ :=
  (claim10_empty_content "key" ⟨[], []⟩ ⟨"r", "t"⟩ ⟨"msg", [], []⟩ ⟨"q", []⟩
    ⟨"resume", "jd", none⟩ (Json.obj []) (fun h => Json.noConfusion h) (by rfl)).2.2.1

/-- Witness for C3: the first disjunct realized at a concrete unparseable
braced completion. -/
theorem claim3_witness :
    extractStep supportFallback supportFallback (Json.str "nothing here")
        = supportFallback (Json.str "nothing here")
      ∨ extractStep supportFallback supportFallback (Json.str "nothing here")
        = supportFallback (Json.str "nothing here")
      ∨ ∃ span v, jsonSpan "nothing here".data = some span ∧ JsonParse span = some v
          ∧ extractStep supportFallback supportFallback (Json.str "nothing here") = v :=
  claim3_extraction_never_throws.1 supportFallback supportFallback "nothing here"
